import Mathlib

set_option linter.unusedVariables false
set_option linter.unusedTactic false

/-!
Shallow embedding of the n8n MCP server adapter (src/index.ts).

JavaScript/JSON values are modelled by `JValue`; `undef` stands for the
JavaScript `undefined` value (in particular, reading an absent object
property yields `undef`).  Numbers are modelled as integers (the adapter
only manipulates integral numbers: status codes, limits, positions,
type versions).
-/

inductive JValue where
  | undef : JValue
  | null : JValue
  | bool : Bool → JValue
  | num : Int → JValue
  | str : String → JValue
  | arr : List JValue → JValue
  | obj : List (String × JValue) → JValue
  deriving Repr

mutual

def decEqJ : (a b : JValue) → Decidable (a = b)
  | .undef, .undef => .isTrue rfl
  | .undef, .null => .isFalse (fun h => JValue.noConfusion h)
  | .undef, .bool b => .isFalse (fun h => JValue.noConfusion h)
  | .undef, .num b => .isFalse (fun h => JValue.noConfusion h)
  | .undef, .str b => .isFalse (fun h => JValue.noConfusion h)
  | .undef, .arr b => .isFalse (fun h => JValue.noConfusion h)
  | .undef, .obj b => .isFalse (fun h => JValue.noConfusion h)
  | .null, .undef => .isFalse (fun h => JValue.noConfusion h)
  | .null, .null => .isTrue rfl
  | .null, .bool b => .isFalse (fun h => JValue.noConfusion h)
  | .null, .num b => .isFalse (fun h => JValue.noConfusion h)
  | .null, .str b => .isFalse (fun h => JValue.noConfusion h)
  | .null, .arr b => .isFalse (fun h => JValue.noConfusion h)
  | .null, .obj b => .isFalse (fun h => JValue.noConfusion h)
  | .bool a, .undef => .isFalse (fun h => JValue.noConfusion h)
  | .bool a, .null => .isFalse (fun h => JValue.noConfusion h)
  | .bool a, .bool b =>
      if h : a = b then .isTrue (h ▸ rfl)
      else .isFalse (fun he => h (JValue.bool.inj he))
  | .bool a, .num b => .isFalse (fun h => JValue.noConfusion h)
  | .bool a, .str b => .isFalse (fun h => JValue.noConfusion h)
  | .bool a, .arr b => .isFalse (fun h => JValue.noConfusion h)
  | .bool a, .obj b => .isFalse (fun h => JValue.noConfusion h)
  | .num a, .undef => .isFalse (fun h => JValue.noConfusion h)
  | .num a, .null => .isFalse (fun h => JValue.noConfusion h)
  | .num a, .bool b => .isFalse (fun h => JValue.noConfusion h)
  | .num a, .num b =>
      if h : a = b then .isTrue (h ▸ rfl)
      else .isFalse (fun he => h (JValue.num.inj he))
  | .num a, .str b => .isFalse (fun h => JValue.noConfusion h)
  | .num a, .arr b => .isFalse (fun h => JValue.noConfusion h)
  | .num a, .obj b => .isFalse (fun h => JValue.noConfusion h)
  | .str a, .undef => .isFalse (fun h => JValue.noConfusion h)
  | .str a, .null => .isFalse (fun h => JValue.noConfusion h)
  | .str a, .bool b => .isFalse (fun h => JValue.noConfusion h)
  | .str a, .num b => .isFalse (fun h => JValue.noConfusion h)
  | .str a, .str b =>
      if h : a = b then .isTrue (h ▸ rfl)
      else .isFalse (fun he => h (JValue.str.inj he))
  | .str a, .arr b => .isFalse (fun h => JValue.noConfusion h)
  | .str a, .obj b => .isFalse (fun h => JValue.noConfusion h)
  | .arr a, .undef => .isFalse (fun h => JValue.noConfusion h)
  | .arr a, .null => .isFalse (fun h => JValue.noConfusion h)
  | .arr a, .bool b => .isFalse (fun h => JValue.noConfusion h)
  | .arr a, .num b => .isFalse (fun h => JValue.noConfusion h)
  | .arr a, .str b => .isFalse (fun h => JValue.noConfusion h)
  | .arr a, .arr b =>
      match decEqJList a b with
      | .isTrue h => .isTrue (h ▸ rfl)
      | .isFalse h => .isFalse (fun he => h (JValue.arr.inj he))
  | .arr a, .obj b => .isFalse (fun h => JValue.noConfusion h)
  | .obj a, .undef => .isFalse (fun h => JValue.noConfusion h)
  | .obj a, .null => .isFalse (fun h => JValue.noConfusion h)
  | .obj a, .bool b => .isFalse (fun h => JValue.noConfusion h)
  | .obj a, .num b => .isFalse (fun h => JValue.noConfusion h)
  | .obj a, .str b => .isFalse (fun h => JValue.noConfusion h)
  | .obj a, .arr b => .isFalse (fun h => JValue.noConfusion h)
  | .obj a, .obj b =>
      match decEqJFields a b with
      | .isTrue h => .isTrue (h ▸ rfl)
      | .isFalse h => .isFalse (fun he => h (JValue.obj.inj he))

def decEqJList : (a b : List JValue) → Decidable (a = b)
  | [], [] => .isTrue rfl
  | [], _ :: _ => .isFalse (fun h => List.noConfusion h)
  | _ :: _, [] => .isFalse (fun h => List.noConfusion h)
  | x :: xs, y :: ys =>
      match decEqJ x y with
      | .isTrue h1 =>
          match decEqJList xs ys with
          | .isTrue h2 => .isTrue (h1 ▸ h2 ▸ rfl)
          | .isFalse h2 => .isFalse (by intro he; injection he with e1 e2; exact h2 e2)
      | .isFalse h1 => .isFalse (by intro he; injection he with e1 e2; exact h1 e1)

def decEqJFields : (a b : List (String × JValue)) → Decidable (a = b)
  | [], [] => .isTrue rfl
  | [], _ :: _ => .isFalse (fun h => List.noConfusion h)
  | _ :: _, [] => .isFalse (fun h => List.noConfusion h)
  | (k1, v1) :: xs, (k2, v2) :: ys =>
      if hk : k1 = k2 then
        match decEqJ v1 v2 with
        | .isTrue h1 =>
            match decEqJFields xs ys with
            | .isTrue h2 => .isTrue (hk ▸ h1 ▸ h2 ▸ rfl)
            | .isFalse h2 => .isFalse (by intro he; injection he with e1 e2; exact h2 e2)
        | .isFalse h1 =>
            .isFalse (by
              intro he; injection he with e1 e2
              exact h1 (congrArg Prod.snd e1))
      else
        .isFalse (by
          intro he; injection he with e1 e2
          exact hk (congrArg Prod.fst e1))

end

instance : DecidableEq JValue := decEqJ

namespace JValue

/-- JavaScript truthiness (`if (v)`, `v || w`, `!v`).  `undefined`, `null`,
`false`, `0` and `""` are falsy; every array and object is truthy. -/
def truthy : JValue → Bool
  | undef => false
  | null => false
  | bool b => b
  | num n => n != 0
  | str s => s != ""
  | arr _ => true
  | obj _ => true

/-- `Array.isArray(v)`. -/
def isArray : JValue → Bool
  | arr _ => true
  | _ => false

/-- `typeof v === "object"` (true for plain objects, arrays and `null`). -/
def typeofIsObject : JValue → Bool
  | obj _ => true
  | arr _ => true
  | null => true
  | _ => false

/-- `v.length` of a modelled array (used for `node.position.length`). -/
def lenJ : JValue → Nat
  | arr xs => xs.length
  | _ => 0

end JValue

open JValue in
/-- JavaScript `a || b`. -/
def jor (a b : JValue) : JValue := if a.truthy then a else b

/-- Update the (unique) occurrence of key `k` in an association list, keeping
its position, or append `(k, v)` at the end — JavaScript property assignment
`o[k] = v` on a plain object. -/
def setInList (fs : List (String × JValue)) (k : String) (v : JValue) :
    List (String × JValue) :=
  match fs with
  | [] => [(k, v)]
  | (k', v') :: rest =>
      if k' = k then (k, v) :: rest else (k', v') :: setInList rest k v

namespace JValue

/-- JavaScript property read `o[k]`: `undef` when the key is absent or the
value is not an object.  (Reading a property of `null`/`undefined` throws in
JavaScript; the theorems below never depend on that corner.) -/
def getField : JValue → String → JValue
  | obj fs, k =>
      match fs.find? (fun p => p.1 = k) with
      | some p => p.2
      | none => undef
  | _, _ => undef

/-- JavaScript property write `o[k] = v`; non-objects are left unchanged. -/
def setField : JValue → String → JValue → JValue
  | obj fs, k, v => obj (setInList fs k v)
  | j, _, _ => j

/-- Object destructuring rest `const { id, ...rest } = o`: all fields but `k`. -/
def removeField : JValue → String → JValue
  | obj fs, k => obj (fs.filter (fun p => ¬ (p.1 = k)))
  | j, _ => j

/-- The own enumerable fields a value contributes under object spread
`{...v}` (primitives contribute nothing of relevance here). -/
def fieldsOf : JValue → List (String × JValue)
  | obj fs => fs
  | _ => []

/-- `Object.entries(v)` for the two shapes the adapter can actually reach it
with (after a `typeof v === "object"` guard): objects and arrays. -/
def entriesOf : JValue → List (String × JValue)
  | obj fs => fs
  | arr xs => (List.range xs.length).zip xs |>.map (fun p => (toString p.1, p.2))
  | _ => []

end JValue

/-- Object spread merge `{...base, ...over}`: later keys override earlier
ones in place, new keys are appended in order. -/
def spreadFields (base over : List (String × JValue)) : List (String × JValue) :=
  over.foldl (fun acc p => setInList acc p.1 p.2) base

/-- A lowercase hex digit, as produced by `Buffer.toString("hex")`. -/
def hexDigit (n : Nat) : Char :=
  if n < 10 then Char.ofNat (48 + n) else Char.ofNat (87 + n)

/-- The character sequence of the hex encoding of a byte list. -/
def hexChars : List Nat → List Char
  | [] => []
  | b :: rest => hexDigit (b / 16 % 16) :: hexDigit (b % 16) :: hexChars rest

/-- `crypto.randomBytes(n).toString("hex")`, applied to the byte list the
OS random source produced. -/
def bytesToHex (bs : List Nat) : String := String.mk (hexChars bs)


mutual

/-- JavaScript string coercion, as in a template literal placeholder. -/
def jsToString : JValue → String
  | .undef => "undefined"
  | .null => "null"
  | .bool true => "true"
  | .bool false => "false"
  | .num n => toString n
  | .str s => s
  | .arr xs => jsJoinComma xs
  | .obj _ => "[object Object]"

/-- `Array.prototype.toString`: elements joined by commas, with `null` and
`undefined` elements rendered as the empty string. -/
def jsJoinComma : List JValue → String
  | [] => ""
  | [x] => jsElemToString x
  | x :: y :: rest => jsElemToString x ++ "," ++ jsJoinComma (y :: rest)

def jsElemToString : JValue → String
  | .undef => ""
  | .null => ""
  | .bool true => "true"
  | .bool false => "false"
  | .num n => toString n
  | .str s => s
  | .arr xs => jsJoinComma xs
  | .obj _ => "[object Object]"

end

/-- Escape a string for JSON output (the adapter only ever stringifies
strings free of control characters, so quote and backslash suffice). -/
def jsonEscape (s : String) : String :=
  String.mk (s.toList.foldr
    (fun c acc =>
      if c = '\\' then '\\' :: '\\' :: acc
      else if c = '"' then '\\' :: '"' :: acc
      else c :: acc) [])

/-- Join a list of rendered pieces with commas. -/
def joinComma : List String → String
  | [] => ""
  | [x] => x
  | x :: y :: rest => x ++ "," ++ joinComma (y :: rest)

mutual

/-- `JSON.stringify(v)` (compact form, no indent argument). -/
def jsonStringify : JValue → String
  | .undef => "undefined"
  | .null => "null"
  | .bool true => "true"
  | .bool false => "false"
  | .num n => toString n
  | .str s => "\"" ++ jsonEscape s ++ "\""
  | .arr xs => "[" ++ joinComma (jsonArrList xs) ++ "]"
  | .obj fs => "\x7b" ++ joinComma (jsonObjList fs) ++ "\x7d"

/-- Rendered array elements; an `undefined` element serializes as `null`. -/
def jsonArrList : List JValue → List String
  | [] => []
  | x :: rest =>
      (match x with
       | .undef => "null"
       | _ => jsonStringify x) :: jsonArrList rest

/-- Rendered object fields; fields holding `undefined` are omitted. -/
def jsonObjList : List (String × JValue) → List String
  | [] => []
  | (k, v) :: rest =>
      match v with
      | .undef => jsonObjList rest
      | _ => ("\"" ++ jsonEscape k ++ "\":" ++ jsonStringify v) :: jsonObjList rest

end


/-- The `response` carried by an `AxiosError` when the server answered:
HTTP status, status text, and the (JSON-decoded) body. -/
structure AxiosResponse where
  status : Nat
  statusText : String
  data : JValue
  deriving DecidableEq, Repr

/-- A JavaScript exception as seen by the adapter's handlers:
an `AxiosError` (whose `response` is absent for network-level failures such
as timeouts), an ordinary `Error`, or a thrown non-`Error` value. -/
inductive JSError where
  | axios (response : Option AxiosResponse) (message : String)
  | jsError (message : String)
  | other (value : JValue)
  deriving DecidableEq, Repr

/-- `formatError` (src/index.ts, lines 298–322): normalize any failure to a
single human-readable string. -/
def formatError : JSError → String
  | .axios response _ =>
      let statusStr := match response with
        | some r => toString r.status
        | none => "undefined"
      let statusTextStr := match response with
        | some r => r.statusText
        | none => "undefined"
      let data := match response with
        | some r => r.data
        | none => JValue.undef
      let message := "HTTP " ++ statusStr ++ " " ++ statusTextStr
      if data.truthy then
        match data with
        | .str s => message ++ " - " ++ s
        | _ =>
            if (data.getField "message").truthy then
              message ++ " - " ++ jsToString (data.getField "message")
            else if (data.getField "error").truthy then
              message ++ " - " ++ jsToString (data.getField "error")
            else
              message ++ " - " ++ jsonStringify data
      else message
  | .jsError msg => msg
  | .other v => jsToString v

/-- One outbound HTTP call: method, path (relative to the `/api/v1` base),
query parameters, and JSON body (`undef` when the call sends none). -/
structure HttpRequest where
  method : String
  path : String
  params : JValue
  body : JValue
  deriving DecidableEq, Repr

/-- The remote n8n REST API, as an oracle from request to outcome:
a decoded response body on success, a thrown error otherwise. -/
def Net := HttpRequest → Except JSError JValue

deriving instance DecidableEq for Except

/-- What a handler did: the outbound requests it issued, in order, and its
result — the final response's decoded body, or the error it threw.  (The
MCP text wrapping of the result is presentation only and is not modelled.) -/
structure ToolOutcome where
  requests : List HttpRequest
  result : Except JSError JValue
  deriving DecidableEq, Repr

/-- Issue the last outbound call of a handler: append the request to the
trace and return the decoded response, or propagate the thrown error
(`const response = await n8nApi...; return ...` with the dispatcher catch). -/
def finalCall (net : Net) (prev : List HttpRequest) (req : HttpRequest) : ToolOutcome :=
  match net req with
  | .ok d => ⟨prev ++ [req], .ok d⟩
  | .error e => ⟨prev ++ [req], .error e⟩

/-- The hardcoded default settings bundle of `createWorkflow` (also reused
as the last-resort settings default of `updateWorkflow`). -/
def defaultSettings : JValue := .obj [
  ("executionOrder", .str "v1"),
  ("saveDataSuccessExecution", .str "all"),
  ("saveExecutionProgress", .bool true),
  ("saveManualExecutions", .bool true),
  ("callerPolicy", .str "workflowsFromSameOwner")]

/-- `typeof v === "object" && v !== null` — the test a connection entry must
pass to survive connections processing. -/
def isStructuredObject (v : JValue) : Bool :=
  v.typeofIsObject && !(v == .null)

/-- The per-node processing function of `createWorkflow` (the `map` callback,
src/index.ts lines 388–422): generate an id when the node has none, validate
`name` and `type`, then default `typeVersion`, `position`, `parameters`,
`disabled` and `notesInFlow`.  `genId` is the hex string
`generateNodeId()` would produce for this node. -/
def createProcessNode (genId : String) (index : Nat) (node : JValue) :
    Except JSError JValue :=
  let node := if (node.getField "id").truthy then node
              else node.setField "id" (.str genId)
  if !(node.getField "name").truthy then
    .error (.jsError ("Node at index " ++ toString index ++
      " is missing required 'name' field"))
  else if !(node.getField "type").truthy then
    .error (.jsError ("Node at index " ++ toString index ++
      " is missing required 'type' field"))
  else
    let node := if (node.getField "typeVersion").truthy then node
                else node.setField "typeVersion" (.num 1)
    let node := if (node.getField "position").truthy
                  && (node.getField "position").isArray
                  && (node.getField "position").lenJ == 2 then node
                else node.setField "position"
                  (.arr [.num (250 + (index : Int) * 250), .num 300])
    let node := if (node.getField "parameters").truthy then node
                else node.setField "parameters" (.obj [])
    let node := node.setField "disabled" (jor (node.getField "disabled") (.bool false))
    let node := node.setField "notesInFlow" (jor (node.getField "notesInFlow") (.bool false))
    .ok node

/-- `nodes.map(createProcessNode)` with 0-based indices; a thrown validation
error aborts the traversal, as a JavaScript exception does.  `entropy i` is
the byte list `crypto.randomBytes(16)` delivers for the node at index `i`
(consulted only when that node lacks an id). -/
def processNodesCreate (entropy : Nat → List Nat) (index : Nat) :
    List JValue → Except JSError (List JValue)
  | [] => .ok []
  | n :: rest => do
      let n' ← createProcessNode (bytesToHex (entropy index)) index n
      let rest' ← processNodesCreate entropy (index + 1) rest
      .ok (n' :: rest')

/-- `createWorkflow` (src/index.ts lines 355–449).  `entropy` feeds the node
id generator, `instanceBytes` the `meta.instanceId` generator, `net` is the
remote API. -/
def createWorkflow (entropy : Nat → List Nat) (instanceBytes : List Nat)
    (net : Net) (args : JValue) : ToolOutcome :=
  let name := args.getField "name"
  let nodes0 := jor (args.getField "nodes") (.arr [])
  let connections0 := jor (args.getField "connections") (.obj [])
  let active := jor (args.getField "active") (.bool false)
  let settings := jor (args.getField "settings") defaultSettings
  if !name.truthy || !nodes0.truthy then
    ⟨[], .error (.jsError "Workflow name and nodes are required")⟩
  else if !nodes0.isArray then
    ⟨[], .error (.jsError "Nodes must be an array")⟩
  else
    match nodes0 with
    | .arr ns =>
        match processNodesCreate entropy 0 ns with
        | .error e => ⟨[], .error e⟩
        | .ok ns' =>
            let processedConnections :=
              if connections0.truthy && connections0.typeofIsObject then
                JValue.obj ((connections0.entriesOf).filter
                  (fun p => isStructuredObject p.2))
              else .obj []
            let payload := JValue.obj [
              ("name", name),
              ("nodes", .arr ns'),
              ("connections", processedConnections),
              ("active", active),
              ("settings", settings),
              ("staticData", .obj []),
              ("meta", .obj [("instanceId", .str (bytesToHex instanceBytes))]),
              ("pinData", .obj []),
              ("tags", .arr [])]
            let req : HttpRequest := ⟨"POST", "/workflows", .undef, payload⟩
            finalCall net [] req
    | _ => ⟨[], .error (.jsError "Nodes must be an array")⟩

/-- The per-node processing function of `updateWorkflow` (src/index.ts lines
460–483): same defaulting as creation, but no `name`/`type` validation and no
length test in the position condition. -/
def updateProcessNode (genId : String) (index : Nat) (node : JValue) : JValue :=
  let node := if (node.getField "id").truthy then node
              else node.setField "id" (.str genId)
  let node := if (node.getField "typeVersion").truthy then node
              else node.setField "typeVersion" (.num 1)
  let node := if (node.getField "position").truthy
                && (node.getField "position").isArray then node
              else node.setField "position"
                (.arr [.num (250 + (index : Int) * 250), .num 300])
  let node := if (node.getField "parameters").truthy then node
              else node.setField "parameters" (.obj [])
  let node := node.setField "disabled" (jor (node.getField "disabled") (.bool false))
  node.setField "notesInFlow" (jor (node.getField "notesInFlow") (.bool false))

/-- `nodes.map(updateProcessNode)` with 0-based indices. -/
def processNodesUpdate (entropy : Nat → List Nat) (index : Nat) :
    List JValue → List JValue
  | [] => []
  | n :: rest =>
      updateProcessNode (bytesToHex (entropy index)) index n ::
        processNodesUpdate entropy (index + 1) rest

/-- `updateWorkflow` (src/index.ts lines 451–516): read-before-write GET,
optional node normalization, spread merge of the existing workflow with the
caller's fields, then the five forced fields, then a PUT. -/
def updateWorkflow (entropy : Nat → List Nat) (instanceBytes : List Nat)
    (net : Net) (args : JValue) : ToolOutcome :=
  let idVal := args.getField "id"
  let updateData := args.removeField "id"
  let getReq : HttpRequest := ⟨"GET", "/workflows/" ++ jsToString idVal, .undef, .undef⟩
  match net getReq with
  | .error e => ⟨[getReq], .error e⟩
  | .ok existingWorkflow =>
      let nodesVal := updateData.getField "nodes"
      let updateData :=
        if nodesVal.truthy && nodesVal.isArray then
          match nodesVal with
          | .arr ns => updateData.setField "nodes" (.arr (processNodesUpdate entropy 0 ns))
          | _ => updateData
        else updateData
      let merged := spreadFields existingWorkflow.fieldsOf updateData.fieldsOf
      let settingsVal := jor (updateData.getField "settings")
        (jor (existingWorkflow.getField "settings") defaultSettings)
      let staticDataVal := jor (existingWorkflow.getField "staticData") (.obj [])
      let metaVal := jor (existingWorkflow.getField "meta")
        (.obj [("instanceId", .str (bytesToHex instanceBytes))])
      let pinDataVal := jor (existingWorkflow.getField "pinData") (.obj [])
      let tagsVal := jor (updateData.getField "tags")
        (jor (existingWorkflow.getField "tags") (.arr []))
      let workflowData := JValue.obj (setInList (setInList (setInList (setInList
        (setInList merged "settings" settingsVal) "staticData" staticDataVal)
        "meta" metaVal) "pinData" pinDataVal) "tags" tagsVal)
      let putReq : HttpRequest :=
        ⟨"PUT", "/workflows/" ++ jsToString idVal, .undef, workflowData⟩
      finalCall net [getReq] putReq

/-- `activateWorkflow` (src/index.ts lines 531–565): PATCH the active flag;
on an `AxiosError` whose response status is 405, fall back to GET +
read-modify-write PUT; rethrow every other failure. -/
def activateWorkflow (net : Net) (args : JValue) : ToolOutcome :=
  let path := "/workflows/" ++ jsToString (args.getField "id")
  let patchReq : HttpRequest :=
    ⟨"PATCH", path, .undef, .obj [("active", args.getField "active")]⟩
  match net patchReq with
  | .ok d => ⟨[patchReq], .ok d⟩
  | .error e =>
      match e with
      | .axios (some r) _ =>
          if r.status = 405 then
            let getReq : HttpRequest := ⟨"GET", path, .undef, .undef⟩
            match net getReq with
            | .ok workflow =>
                let putReq : HttpRequest :=
                  ⟨"PUT", path, .undef,
                    workflow.setField "active" (args.getField "active")⟩
                finalCall net [patchReq, getReq] putReq
            | .error e1 => ⟨[patchReq, getReq], .error e1⟩
          else ⟨[patchReq], .error e⟩
      | _ => ⟨[patchReq], .error e⟩

/-- `executeWorkflow` (src/index.ts lines 567–604): POST to the per-workflow
execute endpoint; on an `AxiosError` with response status 404 or 405, fall
back to one POST to the generic run endpoint; rethrow every other failure. -/
def executeWorkflow (net : Net) (args : JValue) : ToolOutcome :=
  let executionData : JValue :=
    .obj [("workflowData", jor (args.getField "data") (.obj []))]
  let req1 : HttpRequest :=
    ⟨"POST", "/workflows/" ++ jsToString (args.getField "id") ++ "/execute",
      .undef, executionData⟩
  match net req1 with
  | .ok d => ⟨[req1], .ok d⟩
  | .error e =>
      match e with
      | .axios (some r) _ =>
          if r.status = 404 || r.status = 405 then
            let req2 : HttpRequest :=
              ⟨"POST", "/workflows/run", .undef,
                .obj (spreadFields [("workflowId", args.getField "id")]
                  executionData.fieldsOf)⟩
            finalCall net [req1] req2
          else ⟨[req1], .error e⟩
      | _ => ⟨[req1], .error e⟩

/-- `getExecutions` (src/index.ts lines 606–625): GET `/executions` with
`limit` always set (`args.limit || 20`) and `workflowId` only when truthy. -/
def getExecutions (net : Net) (args : JValue) : ToolOutcome :=
  let params0 : JValue := .obj [("limit", jor (args.getField "limit") (.num 20))]
  let params := if (args.getField "workflowId").truthy then
                  params0.setField "workflowId" (args.getField "workflowId")
                else params0
  let req : HttpRequest := ⟨"GET", "/executions", params, .undef⟩
  finalCall net [] req

/-! ### Basic lemmas about the object model -/

theorem finalCall_requests (net : Net) (prev : List HttpRequest) (req : HttpRequest) :
    (finalCall net prev req).requests = prev ++ [req] := by
  cases h : net req <;> simp [finalCall, h]

theorem finalCall_ok (net : Net) (prev : List HttpRequest) (req : HttpRequest) (d : JValue)
    (h : net req = .ok d) : finalCall net prev req = ⟨prev ++ [req], .ok d⟩ := by
  simp [finalCall, h]

theorem finalCall_error (net : Net) (prev : List HttpRequest) (req : HttpRequest) (e : JSError)
    (h : net req = .error e) : finalCall net prev req = ⟨prev ++ [req], .error e⟩ := by
  simp [finalCall, h]

theorem find?_setInList_self (fs : List (String × JValue)) (k : String) (v : JValue) :
    (setInList fs k v).find? (fun p => p.1 = k) = some (k, v) := by
  induction fs with
  | nil => simp [setInList, List.find?]
  | cons p rest ih =>
      obtain ⟨k', v'⟩ := p
      by_cases hk : k' = k
      · simp [setInList, hk, List.find?]
      · simp [setInList, hk, List.find?, ih]

theorem find?_setInList_ne (fs : List (String × JValue)) (k k'' : String) (v : JValue)
    (h : k'' ≠ k) :
    (setInList fs k v).find? (fun p => p.1 = k'') = fs.find? (fun p => p.1 = k'') := by
  induction fs with
  | nil => simp [setInList, List.find?, Ne.symm h]
  | cons p rest ih =>
      obtain ⟨k', v'⟩ := p
      by_cases hk : k' = k
      · subst hk
        simp [setInList, List.find?, Ne.symm h]
      · by_cases hk2 : k' = k''
        · subst hk2
          simp [setInList, hk, List.find?]
        · simp [setInList, hk, List.find?, hk2, ih]

theorem getField_setField_self (fs : List (String × JValue)) (k : String) (v : JValue) :
    ((JValue.obj fs).setField k v).getField k = v := by
  simp [JValue.setField, JValue.getField, find?_setInList_self]

theorem getField_setField_ne (w : JValue) (k k' : String) (v : JValue) (h : k' ≠ k) :
    (w.setField k v).getField k' = w.getField k' := by
  cases w <;> simp [JValue.setField, JValue.getField, find?_setInList_ne _ _ _ _ h]

theorem setField_obj (fs : List (String × JValue)) (k : String) (v : JValue) :
    (JValue.obj fs).setField k v = .obj (setInList fs k v) := rfl

theorem hexChars_length (bs : List Nat) : (hexChars bs).length = 2 * bs.length := by
  induction bs with
  | nil => simp [hexChars]
  | cons b rest ih => simp [hexChars, ih]; ring

theorem bytesToHex_ne_empty (bs : List Nat) (h : bs ≠ []) : bytesToHex bs ≠ "" := by
  cases bs with
  | nil => exact absurd rfl h
  | cons b rest =>
      intro he
      have hd := congrArg String.data he
      simp [bytesToHex, hexChars] at hd

theorem getField_obj_setInList_self (fs : List (String × JValue)) (k : String) (v : JValue) :
    (JValue.obj (setInList fs k v)).getField k = v := by
  simp [JValue.getField, find?_setInList_self]

theorem getField_obj_setInList_ne (fs : List (String × JValue)) (k k' : String) (v : JValue)
    (h : k' ≠ k) :
    (JValue.obj (setInList fs k v)).getField k' = (JValue.obj fs).getField k' := by
  simp [JValue.getField, find?_setInList_ne _ _ _ _ h]

theorem truthy_of_isArray (v : JValue) (h : v.isArray = true) : v.truthy = true := by
  cases v <;> simp_all [JValue.isArray, JValue.truthy]

theorem createProcessNode_eq_updateProcessNode (g : String) (i : Nat) (n : JValue)
    (hname : (n.getField "name").truthy)
    (htype : (n.getField "type").truthy)
    (hpos : (n.getField "position").isArray = true → (n.getField "position").lenJ = 2) :
    createProcessNode g i n = .ok (updateProcessNode g i n) := by
  cases n with
  | undef => simp [JValue.getField, JValue.truthy] at hname
  | null => simp [JValue.getField, JValue.truthy] at hname
  | bool b => simp [JValue.getField, JValue.truthy] at hname
  | num m => simp [JValue.getField, JValue.truthy] at hname
  | str s => simp [JValue.getField, JValue.truthy] at hname
  | arr xs => simp [JValue.getField, JValue.truthy] at hname
  | obj fs =>
      simp only [createProcessNode, updateProcessNode]
      by_cases hid : ((JValue.obj fs).getField "id").truthy = true <;>
      by_cases htv : ((JValue.obj fs).getField "typeVersion").truthy = true <;>
      by_cases hpa : ((JValue.obj fs).getField "position").isArray = true <;>
      by_cases hpr : ((JValue.obj fs).getField "parameters").truthy = true <;>
        simp [hid, htv, hpa, hpr, hname, htype, hpos, getField_setField_ne,
          truthy_of_isArray]

theorem createProcessNode_ok_shape (g : String) (i : Nat) (n n' : JValue)
    (hg : g ≠ "")
    (h : createProcessNode g i n = .ok n') :
    (n'.getField "id").truthy = true ∧ (n'.getField "typeVersion").truthy = true ∧
    (n'.getField "position").isArray = true ∧ (n'.getField "position").lenJ = 2 ∧
    (n'.getField "parameters").truthy = true := by
  cases n with
  | undef => simp [createProcessNode, JValue.getField, JValue.setField, JValue.truthy] at h
  | null => simp [createProcessNode, JValue.getField, JValue.setField, JValue.truthy] at h
  | bool b => simp [createProcessNode, JValue.getField, JValue.setField, JValue.truthy] at h
  | num m => simp [createProcessNode, JValue.getField, JValue.setField, JValue.truthy] at h
  | str s => simp [createProcessNode, JValue.getField, JValue.setField, JValue.truthy] at h
  | arr xs => simp [createProcessNode, JValue.getField, JValue.setField, JValue.truthy] at h
  | obj fs =>
      simp only [createProcessNode] at h
      repeat' split at h
      all_goals try exact Except.noConfusion h
      all_goals injection h with h2
      all_goals subst h2
      all_goals simp_all [setField_obj, getField_obj_setInList_self, getField_obj_setInList_ne,
        JValue.truthy, JValue.isArray, JValue.lenJ]

theorem createProcessNode_position_default (g : String) (i : Nat) (n n' : JValue)
    (hpos : n.getField "position" = .undef)
    (h : createProcessNode g i n = .ok n') :
    n'.getField "position" = .arr [.num (250 + (i : Int) * 250), .num 300] := by
  cases n with
  | undef => simp [createProcessNode, JValue.getField, JValue.setField, JValue.truthy] at h
  | null => simp [createProcessNode, JValue.getField, JValue.setField, JValue.truthy] at h
  | bool b => simp [createProcessNode, JValue.getField, JValue.setField, JValue.truthy] at h
  | num m => simp [createProcessNode, JValue.getField, JValue.setField, JValue.truthy] at h
  | str s => simp [createProcessNode, JValue.getField, JValue.setField, JValue.truthy] at h
  | arr xs => simp [createProcessNode, JValue.getField, JValue.setField, JValue.truthy] at h
  | obj fs =>
      simp only [createProcessNode] at h
      repeat' split at h
      all_goals try exact Except.noConfusion h
      all_goals injection h with h2
      all_goals subst h2
      all_goals simp_all [setField_obj, getField_obj_setInList_self, getField_obj_setInList_ne,
        JValue.truthy, JValue.isArray, JValue.lenJ]

theorem processNodesCreate_ok_forall (e : Nat → List Nat) (k : Nat) (ns ns' : List JValue)
    (hg : ∀ j, (e j).length = 16)
    (h : processNodesCreate e k ns = .ok ns') :
    ∀ n' ∈ ns',
      (n'.getField "id").truthy = true ∧ (n'.getField "typeVersion").truthy = true ∧
      (n'.getField "position").isArray = true ∧ (n'.getField "position").lenJ = 2 ∧
      (n'.getField "parameters").truthy = true := by
  induction ns generalizing k ns' with
  | nil =>
      simp only [processNodesCreate] at h
      injection h with h2
      subst h2
      simp
  | cons n rest ih =>
      simp only [processNodesCreate] at h
      cases hc : createProcessNode (bytesToHex (e k)) k n with
      | error e0 => rw [hc] at h; simp [bind, Except.bind] at h
      | ok n0 =>
          rw [hc] at h
          cases hr : processNodesCreate e (k + 1) rest with
          | error e0 => rw [hr] at h; simp [bind, Except.bind] at h
          | ok rest' =>
              rw [hr] at h
              simp [bind, Except.bind] at h
              subst h
              intro m hm
              rcases List.mem_cons.mp hm with hm | hm
              · subst hm
                have hne : bytesToHex (e k) ≠ "" := by
                  apply bytesToHex_ne_empty
                  intro hnil
                  have := hg k
                  rw [hnil] at this
                  simp at this
                exact createProcessNode_ok_shape _ _ _ _ hne hc
              · exact ih (k + 1) rest' hr m hm

theorem processNodesCreate_ok_getElem (e : Nat → List Nat) (k : Nat) (ns ns' : List JValue)
    (h : processNodesCreate e k ns = .ok ns') :
    ns'.length = ns.length ∧
    ∀ i, i < ns.length → ∃ n n', ns[i]? = some n ∧ ns'[i]? = some n' ∧
      createProcessNode (bytesToHex (e (k + i))) (k + i) n = .ok n' := by
  induction ns generalizing k ns' with
  | nil =>
      simp only [processNodesCreate] at h
      injection h with h2
      subst h2
      simp
  | cons n rest ih =>
      simp only [processNodesCreate] at h
      cases hc : createProcessNode (bytesToHex (e k)) k n with
      | error e0 => rw [hc] at h; simp [bind, Except.bind] at h
      | ok n0 =>
          rw [hc] at h
          cases hr : processNodesCreate e (k + 1) rest with
          | error e0 => rw [hr] at h; simp [bind, Except.bind] at h
          | ok rest' =>
              rw [hr] at h
              simp [bind, Except.bind] at h
              subst h
              obtain ⟨hlen, helem⟩ := ih (k + 1) rest' hr
              constructor
              · simp [hlen]
              · intro i hi
                cases i with
                | zero => exact ⟨n, n0, by simp, by simp, by simpa using hc⟩
                | succ j =>
                    have hj : j < rest.length := by simpa using hi
                    obtain ⟨m, m', hm, hm', hcp⟩ := helem j hj
                    refine ⟨m, m', by simpa using hm, by simpa using hm', ?_⟩
                    have : k + 1 + j = k + (j + 1) := by omega
                    rw [← this]
                    exact hcp

theorem createWorkflow_requests_spec (entropy : Nat → List Nat) (ib : List Nat)
    (net : Net) (args : JValue) (req : HttpRequest)
    (h : (createWorkflow entropy ib net args).requests = [req]) :
    ∃ ns ns', jor (args.getField "nodes") (.arr []) = .arr ns ∧
      processNodesCreate entropy 0 ns = .ok ns' ∧
      req.method = "POST" ∧ req.path = "/workflows" ∧
      req.body.getField "name" = args.getField "name" ∧
      req.body.getField "nodes" = .arr ns' ∧
      req.body.getField "connections" =
        (if (jor (args.getField "connections") (.obj [])).truthy
            && (jor (args.getField "connections") (.obj [])).typeofIsObject then
          JValue.obj ((jor (args.getField "connections") (.obj [])).entriesOf.filter
            (fun p => isStructuredObject p.2))
        else .obj []) := by
  simp only [createWorkflow] at h
  split at h
  · simp at h
  · split at h
    · simp at h
    · split at h
      case _ ns heq =>
        split at h
        · simp at h
        case _ ns' heq2 =>
          rw [finalCall_requests] at h
          simp only [List.nil_append, List.cons.injEq, and_true] at h
          subst h
          refine ⟨ns, ns', heq, heq2, rfl, rfl, ?_, ?_, ?_⟩ <;>
            simp [JValue.getField, List.find?]
      case _ x hne heq => simp at h

theorem truthy_undef : JValue.undef.truthy = false := rfl

theorem truthy_arr (xs : List JValue) : (JValue.arr xs).truthy = true := rfl

theorem isArray_arr (xs : List JValue) : (JValue.arr xs).isArray = true := rfl

/-- Claim C2 (amended): in the update merge, `settings` and `tags` resolve
as caller value (when truthy) → existing remote value (when truthy) →
hardcoded creation default, but `staticData`, `meta` and `pinData` ignore
the caller entirely and resolve existing value (when truthy) → default.
In particular the two settings facts of the claim hold: with no
caller-supplied settings the submitted settings equal the existing remote
ones, and caller-supplied settings win when present. -/
theorem updateWorkflow_merge_precedence (entropy : Nat → List Nat) (ib : List Nat)
    (net : Net) (args existing : JValue)
    (hget : net ⟨"GET", "/workflows/" ++ jsToString (args.getField "id"), .undef, .undef⟩
      = .ok existing) :
    ∃ body,
      (updateWorkflow entropy ib net args).requests =
        [⟨"GET", "/workflows/" ++ jsToString (args.getField "id"), .undef, .undef⟩,
         ⟨"PUT", "/workflows/" ++ jsToString (args.getField "id"), .undef, body⟩] ∧
      body.getField "settings" = jor ((args.removeField "id").getField "settings")
        (jor (existing.getField "settings") defaultSettings) ∧
      body.getField "staticData" = jor (existing.getField "staticData") (.obj []) ∧
      body.getField "meta" = jor (existing.getField "meta")
        (.obj [("instanceId", .str (bytesToHex ib))]) ∧
      body.getField "pinData" = jor (existing.getField "pinData") (.obj []) ∧
      body.getField "tags" = jor ((args.removeField "id").getField "tags")
        (jor (existing.getField "tags") (.arr [])) ∧
      ((existing.getField "settings").truthy = true →
        (args.removeField "id").getField "settings" = .undef →
        body.getField "settings" = existing.getField "settings") ∧
      (((args.removeField "id").getField "settings").truthy = true →
        body.getField "settings" = (args.removeField "id").getField "settings") := by
  simp only [updateWorkflow]
  cases hx : net ⟨"GET", "/workflows/" ++ jsToString (args.getField "id"), .undef, .undef⟩ with
  | error e =>
      rw [hget] at hx
      exact Except.noConfusion hx
  | ok ex2 =>
      rw [hget] at hx
      injection hx with hx2
      subst hx2
      simp only [finalCall_requests]
      cases hnv : (args.removeField "id").getField "nodes" <;>
        refine ⟨_, rfl, ?_, ?_, ?_, ?_, ?_, ?_, ?_⟩ <;>
        first
          | (simp [setField_obj, getField_obj_setInList_self, getField_obj_setInList_ne,
              getField_setField_ne, jor, JValue.truthy, JValue.isArray]; done)
          | (intro h1 h2;
             simp [setField_obj, getField_obj_setInList_self, getField_obj_setInList_ne,
              getField_setField_ne, jor, truthy_undef, truthy_arr, isArray_arr, h1, h2]; done)
          | (intro h1;
             simp [setField_obj, getField_obj_setInList_self, getField_obj_setInList_ne,
              getField_setField_ne, jor, truthy_arr, isArray_arr, h1]; done)

theorem updateWorkflow_merge_precedence_witness :
    ((fun r => if r.method = "GET"
        then Except.ok (JValue.obj [("settings", .obj [("executionOrder", .str "v0")])])
        else Except.ok (JValue.obj [])) : Net)
      ⟨"GET", "/workflows/" ++
          jsToString ((JValue.obj [("id", .str "1")]).getField "id"), .undef, .undef⟩
      = .ok (.obj [("settings", .obj [("executionOrder", .str "v0")])]) ∧
    (∃ body,
      (updateWorkflow (fun _ => List.replicate 16 0) (List.replicate 16 0)
        ((fun r => if r.method = "GET"
          then Except.ok (JValue.obj [("settings", .obj [("executionOrder", .str "v0")])])
          else Except.ok (JValue.obj [])) : Net)
        (.obj [("id", .str "1")])).requests =
        [⟨"GET", "/workflows/" ++
            jsToString ((JValue.obj [("id", .str "1")]).getField "id"), .undef, .undef⟩,
         ⟨"PUT", "/workflows/" ++
            jsToString ((JValue.obj [("id", .str "1")]).getField "id"), .undef, body⟩] ∧
      body.getField "settings" =
        jor (((JValue.obj [("id", .str "1")]).removeField "id").getField "settings")
          (jor ((JValue.obj [("settings", .obj [("executionOrder", .str "v0")])]).getField
            "settings") defaultSettings) ∧
      body.getField "staticData" =
        jor ((JValue.obj [("settings", .obj [("executionOrder", .str "v0")])]).getField
          "staticData") (.obj []) ∧
      body.getField "meta" =
        jor ((JValue.obj [("settings", .obj [("executionOrder", .str "v0")])]).getField "meta")
          (.obj [("instanceId", .str (bytesToHex (List.replicate 16 0)))]) ∧
      body.getField "pinData" =
        jor ((JValue.obj [("settings", .obj [("executionOrder", .str "v0")])]).getField
          "pinData") (.obj []) ∧
      body.getField "tags" =
        jor (((JValue.obj [("id", .str "1")]).removeField "id").getField "tags")
          (jor ((JValue.obj [("settings", .obj [("executionOrder", .str "v0")])]).getField
            "tags") (.arr [])) ∧
      (((JValue.obj [("settings", .obj [("executionOrder", .str "v0")])]).getField
          "settings").truthy = true →
        ((JValue.obj [("id", .str "1")]).removeField "id").getField "settings" = .undef →
        body.getField "settings" =
          (JValue.obj [("settings", .obj [("executionOrder", .str "v0")])]).getField
            "settings") ∧
      ((((JValue.obj [("id", .str "1")]).removeField "id").getField "settings").truthy = true →
        body.getField "settings" =
          ((JValue.obj [("id", .str "1")]).removeField "id").getField "settings")) :=
  ⟨by decide,
   updateWorkflow_merge_precedence (fun _ => List.replicate 16 0) (List.replicate 16 0)
     _ (.obj [("id", .str "1")])
     (.obj [("settings", .obj [("executionOrder", .str "v0")])]) (by decide)⟩

/-- Claim C2, counterexample: the submitted update payload's `staticData` is the
existing remote value even when the caller supplies one — the caller-supplied
`{k: 1}` does not appear downstream. -/
theorem update_staticData_ignores_caller :
    ((updateWorkflow (fun _ => List.replicate 16 0) (List.replicate 16 0)
      (fun r => if r.method = "GET"
        then .ok (.obj [("staticData", .obj [("e", .num 2)])])
        else .ok (.obj []))
      (.obj [("id", .str "1"), ("staticData", .obj [("k", .num 1)])])).requests.map
        (fun r => r.body.getField "staticData") = [.undef, .obj [("e", .num 2)]]) ∧
    ¬ ((updateWorkflow (fun _ => List.replicate 16 0) (List.replicate 16 0)
      (fun r => if r.method = "GET"
        then .ok (.obj [("staticData", .obj [("e", .num 2)])])
        else .ok (.obj []))
      (.obj [("id", .str "1"), ("staticData", .obj [("k", .num 1)])])).requests.map
        (fun r => r.body.getField "staticData") = [.undef, .obj [("k", .num 1)]]) := by
  decide

/-- Claim C3 (amended): on every node whose `name` and `type` are truthy and
whose `position`, when an array, has exactly two entries, update's per-node
normalization agrees with creation's; the asymmetry beyond name/type
validation is creation's extra `position.length !== 2` test. -/
theorem update_create_node_normalization_agree (entropy : Nat → List Nat) (k : Nat)
    (ns : List JValue)
    (h : ∀ n ∈ ns, (n.getField "name").truthy = true ∧ (n.getField "type").truthy = true ∧
      ((n.getField "position").isArray = true → (n.getField "position").lenJ = 2)) :
    processNodesCreate entropy k ns = .ok (processNodesUpdate entropy k ns) := by
  induction ns generalizing k with
  | nil => rfl
  | cons n rest ih =>
      obtain ⟨h1, h2, h3⟩ := h n (List.mem_cons_self n rest)
      simp only [processNodesCreate, processNodesUpdate]
      rw [createProcessNode_eq_updateProcessNode _ _ _ h1 h2 h3]
      rw [ih (k + 1) (fun m hm => h m (List.mem_cons_of_mem _ hm))]
      simp [bind, Except.bind]

theorem update_create_node_normalization_agree_witness :
    (∀ n ∈ [JValue.obj [("name", .str "a"), ("type", .str "t")]],
      (n.getField "name").truthy = true ∧ (n.getField "type").truthy = true ∧
      ((n.getField "position").isArray = true → (n.getField "position").lenJ = 2)) ∧
    processNodesCreate (fun _ => List.replicate 16 0) 0
        [JValue.obj [("name", .str "a"), ("type", .str "t")]]
      = .ok (processNodesUpdate (fun _ => List.replicate 16 0) 0
        [JValue.obj [("name", .str "a"), ("type", .str "t")]]) :=
  ⟨by decide,
   update_create_node_normalization_agree (fun _ => List.replicate 16 0) 0
     [JValue.obj [("name", .str "a"), ("type", .str "t")]] (by decide)⟩

/-- Claim C3, counterexample: a node with `name` and `type` present but a
1-element `position` array is normalized differently by creation (which
replaces the malformed position by the default) and by update (which keeps
it): the claimed equivalence fails beyond the name/type exception. -/
theorem update_create_node_normalization_differ :
    processNodesCreate (fun _ => List.replicate 16 0) 0
        [JValue.obj [("name", .str "a"), ("type", .str "t"), ("position", .arr [.num 1])]]
      ≠ .ok (processNodesUpdate (fun _ => List.replicate 16 0) 0
        [JValue.obj [("name", .str "a"), ("type", .str "t"), ("position", .arr [.num 1])]]) := by
  decide

/-- Claim C1 (code bug): the spec demands that a `create_workflow` call without
a `nodes` argument (or with empty `nodes`) fail with "Workflow name and nodes
are required" before any network call, but the handler first replaces a
missing `nodes` by `[]` (`args.nodes || []`), and an empty array is truthy in
JavaScript, so the nodes half of the check can never fire: the call
`{name: "w"}` issues the POST with an empty node list and succeeds. -/
theorem create_missing_nodes_submits_empty :
    createWorkflow (fun _ => List.replicate 16 0) (List.replicate 16 0)
      (fun _ => .ok (.obj [("id", .str "9")]))
      (.obj [("name", .str "w")]) =
    ⟨[⟨"POST", "/workflows", .undef, .obj [
        ("name", .str "w"),
        ("nodes", .arr []),
        ("connections", .obj []),
        ("active", .bool false),
        ("settings", defaultSettings),
        ("staticData", .obj []),
        ("meta", .obj [("instanceId", .str "00000000000000000000000000000000")]),
        ("pinData", .obj []),
        ("tags", .arr [])]⟩],
      .ok (.obj [("id", .str "9")])⟩ := by decide

/-- Claim C4 (amended): every node of a submitted creation payload has a truthy
`id`, a truthy `typeVersion`, a `position` that is an array of exactly two
entries, and a truthy `parameters` field.  (Caller-supplied truthy values are
kept verbatim, so the stronger typing of the original claim — integer
`typeVersion ≥ 1`, integer position entries, `parameters` a mapping — holds
only for the generated defaults, see the counterexample.) -/
theorem createWorkflow_payload_node_shape (entropy : Nat → List Nat) (ib : List Nat)
    (net : Net) (args : JValue) (req : HttpRequest)
    (hlen : ∀ j, (entropy j).length = 16)
    (hreq : (createWorkflow entropy ib net args).requests = [req]) :
    ∃ ns', req.body.getField "nodes" = .arr ns' ∧
      ∀ n' ∈ ns', (n'.getField "id").truthy = true ∧
        (n'.getField "typeVersion").truthy = true ∧
        (n'.getField "position").isArray = true ∧
        (n'.getField "position").lenJ = 2 ∧
        (n'.getField "parameters").truthy = true := by
  obtain ⟨ns, ns', hn, hp, _, _, _, hnodes, _⟩ :=
    createWorkflow_requests_spec entropy ib net args req hreq
  exact ⟨ns', hnodes, processNodesCreate_ok_forall entropy 0 ns ns' hlen hp⟩

theorem createWorkflow_payload_node_shape_witness :
    (∀ j, (((fun _ => List.replicate 16 0) : Nat → List Nat) j).length = 16) ∧
    (createWorkflow (fun _ => List.replicate 16 0) (List.replicate 16 0)
        (fun _ => .ok (.obj []))
        (.obj [("name", .str "w"),
          ("nodes", .arr [.obj [("name", .str "a"), ("type", .str "t")]])])).requests =
      [⟨"POST", "/workflows", .undef, .obj [
        ("name", .str "w"),
        ("nodes", .arr [.obj [("name", .str "a"), ("type", .str "t"),
          ("id", .str "00000000000000000000000000000000"),
          ("typeVersion", .num 1),
          ("position", .arr [.num 250, .num 300]),
          ("parameters", .obj []),
          ("disabled", .bool false),
          ("notesInFlow", .bool false)]]),
        ("connections", .obj []),
        ("active", .bool false),
        ("settings", defaultSettings),
        ("staticData", .obj []),
        ("meta", .obj [("instanceId", .str "00000000000000000000000000000000")]),
        ("pinData", .obj []),
        ("tags", .arr [])]⟩] ∧
    (∃ ns', ((⟨"POST", "/workflows", .undef, .obj [
        ("name", .str "w"),
        ("nodes", .arr [.obj [("name", .str "a"), ("type", .str "t"),
          ("id", .str "00000000000000000000000000000000"),
          ("typeVersion", .num 1),
          ("position", .arr [.num 250, .num 300]),
          ("parameters", .obj []),
          ("disabled", .bool false),
          ("notesInFlow", .bool false)]]),
        ("connections", .obj []),
        ("active", .bool false),
        ("settings", defaultSettings),
        ("staticData", .obj []),
        ("meta", .obj [("instanceId", .str "00000000000000000000000000000000")]),
        ("pinData", .obj []),
        ("tags", .arr [])]⟩ : HttpRequest)).body.getField "nodes" = .arr ns' ∧
      ∀ n' ∈ ns', (n'.getField "id").truthy = true ∧
        (n'.getField "typeVersion").truthy = true ∧
        (n'.getField "position").isArray = true ∧
        (n'.getField "position").lenJ = 2 ∧
        (n'.getField "parameters").truthy = true) :=
  ⟨fun j => by simp,
   by decide,
   createWorkflow_payload_node_shape (fun _ => List.replicate 16 0) (List.replicate 16 0)
     (fun _ => .ok (.obj []))
     (.obj [("name", .str "w"),
       ("nodes", .arr [.obj [("name", .str "a"), ("type", .str "t")]])])
     _ (fun j => by simp) (by decide)⟩

/-- Claim C4, counterexample: a caller-supplied truthy `typeVersion` of `-1`
reaches the payload unchanged, so not every node of a valid creation payload
has an integer `typeVersion ≥ 1`. -/
theorem create_typeVersion_passthrough :
    ((createWorkflow (fun _ => List.replicate 16 0) (List.replicate 16 0)
      (fun _ => .ok (.obj []))
      (.obj [("name", .str "w"), ("nodes", .arr [.obj [("name", .str "a"),
        ("type", .str "t"), ("typeVersion", .num (-1))]])])).requests.map
        (fun r => match r.body.getField "nodes" with
          | .arr l => l.map (fun n => n.getField "typeVersion")
          | _ => []) = [[.num (-1)]]) ∧ ¬ ((1 : Int) ≤ -1) := by decide

/-- Claim C5: in creation, the i-th node (0-indexed) without a supplied
position receives the deterministic default position (250 + 250·i, 300). -/
theorem createWorkflow_position_default (entropy : Nat → List Nat) (ib : List Nat)
    (net : Net) (args : JValue) (req : HttpRequest) (ns : List JValue) (i : Nat) (n : JValue)
    (hns : args.getField "nodes" = .arr ns)
    (hreq : (createWorkflow entropy ib net args).requests = [req])
    (hn : ns[i]? = some n)
    (hpos : n.getField "position" = .undef) :
    ∃ ns' n', req.body.getField "nodes" = .arr ns' ∧ ns'[i]? = some n' ∧
      n'.getField "position" = .arr [.num (250 + (i : Int) * 250), .num 300] := by
  obtain ⟨ns0, ns', hjor, hp, _, _, _, hnodes, _⟩ :=
    createWorkflow_requests_spec entropy ib net args req hreq
  have hq : ns = ns0 := by
    rw [hns] at hjor
    simpa [jor, JValue.truthy] using hjor
  subst hq
  obtain ⟨hlen, helem⟩ := processNodesCreate_ok_getElem entropy 0 ns ns' hp
  have hi : i < ns.length := (List.getElem?_eq_some.mp hn).1
  obtain ⟨m, m', hm, hm', hcp⟩ := helem i hi
  rw [hn] at hm
  injection hm with hm
  subst hm
  refine ⟨ns', m', hnodes, hm', ?_⟩
  have := createProcessNode_position_default (bytesToHex (entropy (0 + i))) (0 + i) n m'
    hpos hcp
  simpa using this

theorem createWorkflow_position_default_witness :
    ((JValue.obj [("name", .str "w"), ("nodes", .arr [.obj [("name", .str "a"),
        ("type", .str "t")], .obj [("name", .str "b"), ("type", .str "t")]])]).getField
      "nodes" = .arr [.obj [("name", .str "a"), ("type", .str "t")],
        .obj [("name", .str "b"), ("type", .str "t")]]) ∧
    ([JValue.obj [("name", .str "a"), ("type", .str "t")],
      .obj [("name", .str "b"), ("type", .str "t")]][1]? =
        some (.obj [("name", .str "b"), ("type", .str "t")])) ∧
    ((JValue.obj [("name", .str "b"), ("type", .str "t")]).getField "position" = .undef) ∧
    (∃ ns' n',
      ((⟨"POST", "/workflows", .undef, .obj [
        ("name", .str "w"),
        ("nodes", .arr [
          .obj [("name", .str "a"), ("type", .str "t"),
            ("id", .str "00000000000000000000000000000000"),
            ("typeVersion", .num 1),
            ("position", .arr [.num 250, .num 300]),
            ("parameters", .obj []),
            ("disabled", .bool false),
            ("notesInFlow", .bool false)],
          .obj [("name", .str "b"), ("type", .str "t"),
            ("id", .str "00000000000000000000000000000000"),
            ("typeVersion", .num 1),
            ("position", .arr [.num 500, .num 300]),
            ("parameters", .obj []),
            ("disabled", .bool false),
            ("notesInFlow", .bool false)]]),
        ("connections", .obj []),
        ("active", .bool false),
        ("settings", defaultSettings),
        ("staticData", .obj []),
        ("meta", .obj [("instanceId", .str "00000000000000000000000000000000")]),
        ("pinData", .obj []),
        ("tags", .arr [])]⟩ : HttpRequest)).body.getField "nodes" = .arr ns' ∧
      ns'[1]? = some n' ∧
      n'.getField "position" = .arr [.num (250 + (1 : Int) * 250), .num 300]) :=
  ⟨by decide, by decide, by decide,
   createWorkflow_position_default (fun _ => List.replicate 16 0) (List.replicate 16 0)
     (fun _ => .ok (.obj []))
     (.obj [("name", .str "w"), ("nodes", .arr [.obj [("name", .str "a"), ("type", .str "t")],
       .obj [("name", .str "b"), ("type", .str "t")]])])
     _ [.obj [("name", .str "a"), ("type", .str "t")],
        .obj [("name", .str "b"), ("type", .str "t")]] 1
     (.obj [("name", .str "b"), ("type", .str "t")])
     (by decide) (by decide) (by decide) (by decide)⟩

/-- Claim C6: the submitted creation payload's connections mapping keeps
exactly the entries of the `connections` argument whose value is a non-null
structured object (`typeof v === "object" && v !== null`), values unchanged;
entries of any other shape are dropped without error. -/
theorem createWorkflow_connections_filter (entropy : Nat → List Nat) (ib : List Nat)
    (net : Net) (args : JValue) (req : HttpRequest) (fsc : List (String × JValue))
    (hconn : args.getField "connections" = .obj fsc)
    (hreq : (createWorkflow entropy ib net args).requests = [req]) :
    req.body.getField "connections" = .obj (fsc.filter (fun p => isStructuredObject p.2)) := by
  obtain ⟨ns, ns', _, _, _, _, _, _, hc⟩ :=
    createWorkflow_requests_spec entropy ib net args req hreq
  rw [hconn] at hc
  simpa [jor, JValue.truthy, JValue.typeofIsObject, JValue.entriesOf] using hc

theorem createWorkflow_connections_filter_witness :
    ((JValue.obj [("name", .str "w"), ("nodes", .arr []),
        ("connections", .obj [("A", .obj [("x", .num 1)]), ("B", .str "oops"),
          ("C", .null)])]).getField "connections" =
      .obj [("A", .obj [("x", .num 1)]), ("B", .str "oops"), ("C", .null)]) ∧
    ((⟨"POST", "/workflows", .undef, .obj [
        ("name", .str "w"),
        ("nodes", .arr []),
        ("connections", .obj [("A", .obj [("x", .num 1)])]),
        ("active", .bool false),
        ("settings", defaultSettings),
        ("staticData", .obj []),
        ("meta", .obj [("instanceId", .str "00000000000000000000000000000000")]),
        ("pinData", .obj []),
        ("tags", .arr [])]⟩ : HttpRequest)).body.getField "connections" =
      .obj ([("A", JValue.obj [("x", .num 1)]), ("B", .str "oops"),
        ("C", .null)].filter (fun p => isStructuredObject p.2)) :=
  ⟨by decide,
   createWorkflow_connections_filter (fun _ => List.replicate 16 0) (List.replicate 16 0)
     (fun _ => .ok (.obj []))
     (.obj [("name", .str "w"), ("nodes", .arr []),
       ("connections", .obj [("A", .obj [("x", .num 1)]), ("B", .str "oops"), ("C", .null)])])
     _ [("A", .obj [("x", .num 1)]), ("B", .str "oops"), ("C", .null)]
     (by decide) (by decide)⟩

/-- Claim C7: if the activation PATCH fails with status 405, exactly one GET
then one PUT follow, the PUT body being the fetched workflow with its
`active` field set to the requested value; if the PATCH fails with any other
error (another status, a response-less Axios failure, or a non-Axios error)
no fallback request is issued and the error propagates unmodified. -/
theorem activateWorkflow_fallback (net : Net) (args : JValue) :
    (∀ (r : AxiosResponse) (msg : String) (workflow : JValue)
        (fsw : List (String × JValue)),
      r.status = 405 →
      net ⟨"PATCH", "/workflows/" ++ jsToString (args.getField "id"), .undef,
        .obj [("active", args.getField "active")]⟩ = .error (.axios (some r) msg) →
      net ⟨"GET", "/workflows/" ++ jsToString (args.getField "id"), .undef, .undef⟩
        = .ok workflow →
      workflow = .obj fsw →
      (activateWorkflow net args).requests =
        [⟨"PATCH", "/workflows/" ++ jsToString (args.getField "id"), .undef,
          .obj [("active", args.getField "active")]⟩,
         ⟨"GET", "/workflows/" ++ jsToString (args.getField "id"), .undef, .undef⟩,
         ⟨"PUT", "/workflows/" ++ jsToString (args.getField "id"), .undef,
          workflow.setField "active" (args.getField "active")⟩]) ∧
    (∀ e : JSError,
      net ⟨"PATCH", "/workflows/" ++ jsToString (args.getField "id"), .undef,
        .obj [("active", args.getField "active")]⟩ = .error e →
      (∀ r msg, e = .axios (some r) msg → r.status ≠ 405) →
      (activateWorkflow net args).requests =
        [⟨"PATCH", "/workflows/" ++ jsToString (args.getField "id"), .undef,
          .obj [("active", args.getField "active")]⟩] ∧
      (activateWorkflow net args).result = .error e) := by
  constructor
  · intro r msg workflow fsw h405 hpatch hget hw
    simp only [activateWorkflow]
    rw [hpatch]
    simp [h405, hget, finalCall_requests]
  · intro e hpatch hnot
    simp only [activateWorkflow]
    rw [hpatch]
    cases e with
    | axios resp m =>
        cases resp with
        | some r =>
            have hne : r.status ≠ 405 := hnot r m rfl
            simp [hne]
        | none => simp
    | jsError m => simp
    | other v => simp

theorem activateWorkflow_fallback_witness :
    ((405 : Nat) = 405) ∧
    (((fun r => if r.method = "PATCH"
        then Except.error (JSError.axios (some ⟨405, "Method Not Allowed", .undef⟩) "m")
        else if r.method = "GET" then Except.ok (JValue.obj [("active", .bool false)])
        else Except.ok (JValue.obj [("ok", .num 1)])) : Net)
      ⟨"PATCH", "/workflows/" ++ jsToString
          ((JValue.obj [("id", .str "1"), ("active", .bool true)]).getField "id"), .undef,
        .obj [("active", (JValue.obj [("id", .str "1"), ("active", .bool true)]).getField
          "active")]⟩
      = .error (.axios (some ⟨405, "Method Not Allowed", .undef⟩) "m")) ∧
    (activateWorkflow
      ((fun r => if r.method = "PATCH"
        then Except.error (JSError.axios (some ⟨405, "Method Not Allowed", .undef⟩) "m")
        else if r.method = "GET" then Except.ok (JValue.obj [("active", .bool false)])
        else Except.ok (JValue.obj [("ok", .num 1)])) : Net)
      (.obj [("id", .str "1"), ("active", .bool true)])).requests =
      [⟨"PATCH", "/workflows/" ++ jsToString
          ((JValue.obj [("id", .str "1"), ("active", .bool true)]).getField "id"), .undef,
        .obj [("active", (JValue.obj [("id", .str "1"), ("active", .bool true)]).getField
          "active")]⟩,
       ⟨"GET", "/workflows/" ++ jsToString
          ((JValue.obj [("id", .str "1"), ("active", .bool true)]).getField "id"),
        .undef, .undef⟩,
       ⟨"PUT", "/workflows/" ++ jsToString
          ((JValue.obj [("id", .str "1"), ("active", .bool true)]).getField "id"), .undef,
        (JValue.obj [("active", .bool false)]).setField "active"
          ((JValue.obj [("id", .str "1"), ("active", .bool true)]).getField "active")⟩] :=
  ⟨rfl, by decide,
   (activateWorkflow_fallback _ (.obj [("id", .str "1"), ("active", .bool true)])).1
     ⟨405, "Method Not Allowed", .undef⟩ "m" (.obj [("active", .bool false)])
     [("active", .bool false)] rfl (by decide) (by decide) rfl⟩

/-- Claim C8: if the per-workflow execute POST fails with status 404 or 405,
exactly one secondary POST to the generic run endpoint is issued with body
`{workflowId: id, workflowData: data}`; a successful primary POST issues no
fallback; any other failure propagates unmodified with no fallback. -/
theorem executeWorkflow_fallback (net : Net) (args : JValue) :
    (∀ (r : AxiosResponse) (msg : String),
      net ⟨"POST", "/workflows/" ++ jsToString (args.getField "id") ++ "/execute", .undef,
        .obj [("workflowData", jor (args.getField "data") (.obj []))]⟩
        = .error (.axios (some r) msg) →
      (r.status = 404 ∨ r.status = 405) →
      (executeWorkflow net args).requests =
        [⟨"POST", "/workflows/" ++ jsToString (args.getField "id") ++ "/execute", .undef,
          .obj [("workflowData", jor (args.getField "data") (.obj []))]⟩,
         ⟨"POST", "/workflows/run", .undef,
          .obj [("workflowId", args.getField "id"),
                ("workflowData", jor (args.getField "data") (.obj []))]⟩]) ∧
    (∀ d : JValue,
      net ⟨"POST", "/workflows/" ++ jsToString (args.getField "id") ++ "/execute", .undef,
        .obj [("workflowData", jor (args.getField "data") (.obj []))]⟩ = .ok d →
      (executeWorkflow net args).requests =
        [⟨"POST", "/workflows/" ++ jsToString (args.getField "id") ++ "/execute", .undef,
          .obj [("workflowData", jor (args.getField "data") (.obj []))]⟩] ∧
      (executeWorkflow net args).result = .ok d) ∧
    (∀ e : JSError,
      net ⟨"POST", "/workflows/" ++ jsToString (args.getField "id") ++ "/execute", .undef,
        .obj [("workflowData", jor (args.getField "data") (.obj []))]⟩ = .error e →
      (∀ r msg, e = .axios (some r) msg → r.status ≠ 404 ∧ r.status ≠ 405) →
      (executeWorkflow net args).requests =
        [⟨"POST", "/workflows/" ++ jsToString (args.getField "id") ++ "/execute", .undef,
          .obj [("workflowData", jor (args.getField "data") (.obj []))]⟩] ∧
      (executeWorkflow net args).result = .error e) := by
  refine ⟨?_, ?_, ?_⟩
  · intro r msg hp hst
    simp only [executeWorkflow]
    rw [hp]
    rcases hst with h | h <;>
      simp [h, finalCall_requests, spreadFields, setInList, JValue.fieldsOf, List.foldl]
  · intro d hok
    simp only [executeWorkflow]
    rw [hok]
    simp
  · intro e hp hnot
    simp only [executeWorkflow]
    rw [hp]
    cases e with
    | axios resp m =>
        cases resp with
        | some r =>
            have hne := hnot r m rfl
            simp [hne.1, hne.2]
        | none => simp
    | jsError m => simp
    | other v => simp

theorem executeWorkflow_fallback_witness :
    (((fun r => if r.path = "/workflows/7/execute"
        then Except.error (JSError.axios (some ⟨404, "Not Found", .undef⟩) "m")
        else Except.ok (JValue.obj [("started", .bool true)])) : Net)
      ⟨"POST", "/workflows/" ++ jsToString ((JValue.obj [("id", .str "7")]).getField "id")
          ++ "/execute", .undef,
        .obj [("workflowData", jor ((JValue.obj [("id", .str "7")]).getField "data")
          (.obj []))]⟩
      = .error (.axios (some ⟨404, "Not Found", .undef⟩) "m")) ∧
    ((404 : Nat) = 404 ∨ (404 : Nat) = 405) ∧
    (executeWorkflow
      ((fun r => if r.path = "/workflows/7/execute"
        then Except.error (JSError.axios (some ⟨404, "Not Found", .undef⟩) "m")
        else Except.ok (JValue.obj [("started", .bool true)])) : Net)
      (.obj [("id", .str "7")])).requests =
      [⟨"POST", "/workflows/" ++ jsToString ((JValue.obj [("id", .str "7")]).getField "id")
          ++ "/execute", .undef,
        .obj [("workflowData", jor ((JValue.obj [("id", .str "7")]).getField "data")
          (.obj []))]⟩,
       ⟨"POST", "/workflows/run", .undef,
        .obj [("workflowId", (JValue.obj [("id", .str "7")]).getField "id"),
              ("workflowData", jor ((JValue.obj [("id", .str "7")]).getField "data")
                (.obj []))]⟩] :=
  ⟨by decide, Or.inl rfl,
   (executeWorkflow_fallback _ (.obj [("id", .str "7")])).1
     ⟨404, "Not Found", .undef⟩ "m" (by decide) (Or.inl rfl)⟩

/-- Claim C9 (amended): `formatError` normalizes an Axios failure to
`HTTP {status} {statusText}` with: the body appended when it is a truthy
(non-empty) string; else the `message` field value appended when truthy;
else the `error` field value appended when truthy; else the full body JSON
appended; and nothing appended when the body is falsy.  An Axios failure
without a response (e.g. a timeout) yields `HTTP undefined undefined`, not
the raw message; only non-Axios errors fall back to the raw message. -/
theorem formatError_spec :
    (∀ (r : AxiosResponse) (msg s : String), r.data = .str s → s ≠ "" →
      formatError (.axios (some r) msg) =
        "HTTP " ++ toString r.status ++ " " ++ r.statusText ++ " - " ++ s) ∧
    (∀ (r : AxiosResponse) (msg : String), r.data.truthy = true →
      (∀ s, r.data ≠ .str s) →
      (r.data.getField "message").truthy = true →
      formatError (.axios (some r) msg) =
        "HTTP " ++ toString r.status ++ " " ++ r.statusText ++ " - " ++
          jsToString (r.data.getField "message")) ∧
    (∀ (r : AxiosResponse) (msg : String), r.data.truthy = true →
      (∀ s, r.data ≠ .str s) →
      (r.data.getField "message").truthy = false →
      (r.data.getField "error").truthy = true →
      formatError (.axios (some r) msg) =
        "HTTP " ++ toString r.status ++ " " ++ r.statusText ++ " - " ++
          jsToString (r.data.getField "error")) ∧
    (∀ (r : AxiosResponse) (msg : String), r.data.truthy = true →
      (∀ s, r.data ≠ .str s) →
      (r.data.getField "message").truthy = false →
      (r.data.getField "error").truthy = false →
      formatError (.axios (some r) msg) =
        "HTTP " ++ toString r.status ++ " " ++ r.statusText ++ " - " ++
          jsonStringify r.data) ∧
    (∀ (r : AxiosResponse) (msg : String), r.data.truthy = false →
      formatError (.axios (some r) msg) =
        "HTTP " ++ toString r.status ++ " " ++ r.statusText) ∧
    (∀ msg : String, formatError (.axios none msg) = "HTTP undefined undefined") ∧
    (∀ msg : String, formatError (.jsError msg) = msg) := by
  refine ⟨?_, ?_, ?_, ?_, ?_, ?_, ?_⟩
  · intro r msg s hd hs
    simp [formatError, hd, JValue.truthy, hs]
  · intro r msg ht hstr hm
    cases hd : r.data <;> simp_all [formatError]
  · intro r msg ht hstr hm he
    cases hd : r.data <;> simp_all [formatError]
  · intro r msg ht hstr hm he
    cases hd : r.data <;> simp_all [formatError]
  · intro r msg ht
    cases hd : r.data <;> simp_all [formatError, JValue.truthy]
  · intro msg
    simp [formatError, JValue.truthy]
  · intro msg
    simp [formatError]

theorem formatError_spec_witness :
    ((JValue.str "gone" : JValue) = .str "gone") ∧ ("gone" : String) ≠ "" ∧
    formatError (.axios (some ⟨404, "Not Found", .str "gone"⟩) "m") =
      "HTTP " ++ toString (404 : Nat) ++ " " ++ "Not Found" ++ " - " ++ "gone" :=
  ⟨rfl, by decide,
   formatError_spec.1 ⟨404, "Not Found", .str "gone"⟩ "m" "gone" rfl (by decide)⟩

/-- Claim C9, counterexample: an Axios failure with no HTTP response — a
timeout — is normalized to `HTTP undefined undefined`, not the raw message
string the claim requires. -/
theorem formatError_no_response_cex :
    formatError (.axios none "timeout of 30000ms exceeded") = "HTTP undefined undefined" ∧
    formatError (.axios none "timeout of 30000ms exceeded")
      ≠ "timeout of 30000ms exceeded" := by decide

/-- Claim C10: the executions query always carries `limit` — the caller value
when truthy, else 20 (so a caller-supplied falsy limit such as 0 is sent as
20) — and a caller-supplied empty-string `workflowId` is omitted from the
query exactly as if it were absent. -/
theorem getExecutions_query (net : Net) (args : JValue) (req : HttpRequest)
    (hreq : (getExecutions net args).requests = [req]) :
    ((args.getField "limit").truthy = false → req.params.getField "limit" = .num 20) ∧
    (args.getField "limit" = .num 0 → req.params.getField "limit" = .num 20) ∧
    ((args.getField "limit").truthy = true →
      req.params.getField "limit" = args.getField "limit") ∧
    (args.getField "workflowId" = .str "" →
      req.params = .obj [("limit", jor (args.getField "limit") (.num 20))]) ∧
    ((args.getField "workflowId").truthy = false →
      req.params = .obj [("limit", jor (args.getField "limit") (.num 20))]) := by
  simp only [getExecutions] at hreq
  rw [finalCall_requests] at hreq
  simp only [List.nil_append, List.cons.injEq, and_true] at hreq
  subst hreq
  refine ⟨?_, ?_, ?_, ?_, ?_⟩ <;> intro h <;>
    by_cases hw : ((args.getField "workflowId").truthy = true) <;>
    simp_all [setField_obj, getField_obj_setInList_self, getField_obj_setInList_ne,
      JValue.getField, List.find?, jor, JValue.truthy]

theorem getExecutions_query_witness :
    ((getExecutions (fun _ => .ok (.obj [])) (.obj [("limit", .num 0), ("workflowId", .str "")])).requests =
      [⟨"GET", "/executions", .obj [("limit", .num 20)], .undef⟩]) ∧
    (((JValue.obj [("limit", .num 0), ("workflowId", .str "")]).getField "limit").truthy = false →
      (⟨"GET", "/executions", .obj [("limit", .num 20)], .undef⟩ : HttpRequest).params.getField "limit" = .num 20) ∧
    ((JValue.obj [("limit", .num 0), ("workflowId", .str "")]).getField "limit" = .num 0 →
      (⟨"GET", "/executions", .obj [("limit", .num 20)], .undef⟩ : HttpRequest).params.getField "limit" = .num 20) ∧
    (((JValue.obj [("limit", .num 0), ("workflowId", .str "")]).getField "limit").truthy = true →
      (⟨"GET", "/executions", .obj [("limit", .num 20)], .undef⟩ : HttpRequest).params.getField "limit" = (JValue.obj [("limit", .num 0), ("workflowId", .str "")]).getField "limit") ∧
    ((JValue.obj [("limit", .num 0), ("workflowId", .str "")]).getField "workflowId" = .str "" →
      (⟨"GET", "/executions", .obj [("limit", .num 20)], .undef⟩ : HttpRequest).params = .obj [("limit", jor ((JValue.obj [("limit", .num 0), ("workflowId", .str "")]).getField "limit") (.num 20))]) ∧
    (((JValue.obj [("limit", .num 0), ("workflowId", .str "")]).getField "workflowId").truthy = false →
      (⟨"GET", "/executions", .obj [("limit", .num 20)], .undef⟩ : HttpRequest).params = .obj [("limit", jor ((JValue.obj [("limit", .num 0), ("workflowId", .str "")]).getField "limit") (.num 20))]) :=
  ⟨by decide,
   getExecutions_query (fun _ => .ok (.obj [])) (.obj [("limit", .num 0), ("workflowId", .str "")])
     ⟨"GET", "/executions", .obj [("limit", .num 20)], .undef⟩ (by decide)⟩
